import Mathlib

/-!
# subprocess: `ProcessBuilder.cpp` (POSIX branch)

A shallow embedding of `src/cpp/subprocess/ProcessBuilder.cpp`.  Every call
that leaves the program (`waitpid`, `kill`, `pipe_close`, `pipe_create`,
`posix_spawn`, the steady clock, ...) is answered by a scripted operating
system `OS`; the calls that were issued are recorded, in order, in the
`trace` of a `World`.  Loops that the source runs until the operating system
lets them stop take a `fuel` argument and return `none` when it runs out.
Times are integers (clock ticks); the conversion to `double` seconds is
monotone and is not modelled.
-/

namespace Subprocess

/-! ## Basic types and constants -/

/-- The type `PipeHandle`, an `int` descriptor on POSIX. -/
abbrev PipeHandle := Int

/-- The type `pid_t`. -/
abbrev pid_t := Int

/-- The type `CommandLine`, a vector of strings. -/
abbrev CommandLine := List String

/-- Modelled from the spec: the "bad-pipe value" of §3/§4.3, the sentinel of a
pipe field that owns nothing.  It is declared in a header that is not part of
the sources at hand; the POSIX value is `(PipeHandle)-1`. -/
def kBadPipeValue : PipeHandle := -1

/-- Modelled from the spec: the "unset" sentinel of the cached exit status
(§3).  It is declared in a header that is not part of the sources at hand; the
value is the literal that `Popen::operator=` (line 133) writes into the
`returncode` of a moved-from handle. -/
def kBadReturnCode : Int := -1000

/-- Modelled from the spec: descriptor 0 (§4.2), declared in an absent header. -/
def kStdInValue : PipeHandle := 0

/-- Modelled from the spec: descriptor 1 (§4.2), declared in an absent header. -/
def kStdOutValue : PipeHandle := 1

/-- Modelled from the spec: descriptor 2 (§4.2), declared in an absent header. -/
def kStdErrValue : PipeHandle := 2

/-- The `waitpid` option `WNOHANG` of `<sys/wait.h>`. -/
def WNOHANG : Int := 1

/-- The `errno` value `EINTR` of `<errno.h>`. -/
def EINTR : Int := 4

/-- Modelled from the spec: the signal number behind `terminate()` ("requests
graceful shutdown", §4.3); `PSIGTERM` is declared in an absent header. -/
def PSIGTERM : Int := 15

/-- Modelled from the spec: the signal number behind `kill()` ("requests
immediate termination", §4.3); `PSIGKILL` is declared in an absent header. -/
def PSIGKILL : Int := 9

/-- Modelled from the spec: the default argument of `Popen::wait`, which is
declared in the absent header `ProcessBuilder.hpp`.  §4.3: "`close()` performs a
blocking indefinite `wait()`", and `timeout < 0` means wait indefinitely. -/
def kDefaultWaitTimeout : Int := -1

/-- One step of a `posix_spawn_file_actions_t` redirection plan. -/
inductive FileAction where
  | addclose (fd : PipeHandle)
  | adddup2 (fd : PipeHandle) (newfd : PipeHandle)
deriving DecidableEq, Repr

/-- What one `waitpid` call hands back: its return value, the word it stored
through the status pointer (if it stored one) and `errno` after the call. -/
structure WaitResult where
  child : Int
  status : Option Int
  err : Int
deriving DecidableEq, Repr

/-- A call that leaves the program. -/
inductive Event where
  | pipe_close (fd : PipeHandle)
  | waitpid (pid : pid_t) (options : Int)
  | kill (pid : pid_t) (signum : Int)
  | pipe_create
  | pipe_read_all (fd : PipeHandle)
  | file_action (a : FileAction)
  | setcwd (dir : String)
  | restore_cwd
  | posix_spawn (program : String) (argv : List String) (actions : List FileAction)
      (env : Option (List String))
deriving DecidableEq, Repr

/-- The scripted operating system: the answer to the `n`-th call of each kind.
`strerror` is the text of `strerror(errno)` after a failed spawn and
`indeterminate` is the value read from an `int` local that was never written.
`open_max` is the descriptor limit `OPEN_MAX`: a descriptor number is valid when
it is at least 0 and below it; the three standard descriptors are valid. -/
structure OS where
  waitpid : Nat → pid_t → Int → WaitResult
  kill : Nat → pid_t → Int → Int
  now : Nat → Int
  pipe_create : Nat → Option (PipeHandle × PipeHandle)
  pipe_read_all : PipeHandle → Option String
  find_program : String → String
  posix_spawn : String → List String → List FileAction → Option pid_t
  strerror : String
  indeterminate : Int
  open_max : Int
  std_in_range : 2 < open_max

/-- The state outside the handle: the calls issued so far, how many calls of
each kind were answered, and the two function-local statics of
`monotonic_seconds`. -/
structure World where
  trace : List Event
  waits : Nat
  kills : Nat
  ticks : Nat
  pipes : Nat
  needs_init : Bool
  begin : Int
deriving DecidableEq, Repr

/-- The world at program start. -/
def World.start : World :=
  { trace := [], waits := 0, kills := 0, ticks := 0, pipes := 0, needs_init := true, begin := 0 }

/-- The exceptions thrown by the code. -/
inductive Error where
  | invalid_argument (what : String)
  | CommandNotFoundError (what : String)
  | SpawnError (what : String)
  | TimeoutExpired (what : String)
  | CalledProcessError (what : String) (cmd : CommandLine) (returncode : Int)
      (cout : String) (cerr : String)
  | pipe_create_failed
deriving DecidableEq, Repr

/-- A call either returns a value or throws. -/
inductive Outcome (α : Type) where
  | ret (a : α)
  | throw (e : Error)
deriving DecidableEq, Repr

/-- The class `Popen`: the process handle. -/
structure Popen where
  cin : PipeHandle
  cout : PipeHandle
  cerr : PipeHandle
  pid : pid_t
  returncode : Int
  args : CommandLine
deriving DecidableEq, Repr

/-- Modelled from the spec: a default-constructed `Popen` (the member
initialisers are in the absent header): "all fields reset to sentinel/empty
values" (§3). -/
def Popen.fresh : Popen :=
  { cin := kBadPipeValue, cout := kBadPipeValue, cerr := kBadPipeValue, pid := 0,
    returncode := kBadReturnCode, args := [] }

/-! ## System calls -/

/-- The call `pipe_close(fd)`. -/
def pipe_close (fd : PipeHandle) (w : World) : World :=
  { w with trace := w.trace ++ [Event.pipe_close fd] }

/-- The call `waitpid(pid, &exit_code, options)`. -/
def sys_waitpid (os : OS) (pid : pid_t) (options : Int) (w : World) : WaitResult × World :=
  (os.waitpid w.waits pid options,
   { w with trace := w.trace ++ [Event.waitpid pid options], waits := w.waits + 1 })

/-- The call `::kill(pid, signum)`. -/
def sys_kill (os : OS) (pid : pid_t) (signum : Int) (w : World) : Int × World :=
  (os.kill w.kills pid signum,
   { w with trace := w.trace ++ [Event.kill pid signum], kills := w.kills + 1 })

/-- The call `std::chrono::steady_clock::now()`. -/
def steady_now (os : OS) (w : World) : Int × World :=
  (os.now w.ticks, { w with ticks := w.ticks + 1 })

/-! ## The stop watch (lines 65-92) -/

/-- The function `monotonic_seconds` (lines 65-75).  Line 70 stores `true` back
into `needs_init`. -/
def monotonic_seconds (os : OS) (w : World) : Int × World :=
  let w1 : World :=
    if w.needs_init then
      let r := steady_now os w
      { r.2 with begin := r.1, needs_init := true }
    else w
  let r := steady_now os w1
  (r.1 - w1.begin, r.2)

/-- The class `StopWatch`: its only member is `mStart`. -/
structure StopWatch where
  mStart : Int
deriving DecidableEq, Repr

/-- The constructor `StopWatch()`, which calls `start()` (lines 79, 81). -/
def StopWatch.start (os : OS) (w : World) : StopWatch × World :=
  let r := monotonic_seconds os w
  ({ mStart := r.1 }, r.2)

/-- The method `StopWatch::seconds` (line 82). -/
def StopWatch.seconds (os : OS) (self : StopWatch) (w : World) : Int × World :=
  let r := monotonic_seconds os w
  (r.1 - self.mStart, r.2)

/-- The function `sleep_seconds` (lines 87-92); the sleep itself only lets the
clock advance, which the scripted clock does on its own. -/
def sleep_seconds (os : OS) (w : World) : Int × World :=
  let r := StopWatch.start os w
  StopWatch.seconds os r.1 r.2

/-! ## The process handle (lines 202-245, 137-159, 114-135) -/

/-- The method `Popen::poll` (lines 202-212). -/
def Popen.poll (os : OS) (self : Popen) (w : World) : Bool × Popen × World :=
  if self.returncode ≠ kBadReturnCode then (true, self, w)
  else
    let r := sys_waitpid os self.pid WNOHANG w
    let exit_code := r.1.status.getD os.indeterminate
    if r.1.child = 0 then (false, self, r.2)
    else if r.1.child > 0 then (true, { self with returncode := exit_code }, r.2)
    else (false, self, r.2)

/-- The loop of lines 218-227: `waitpid(pid, &exit_code, 0)` until it is not
interrupted; the result is the final `exit_code`. -/
def wait_blocking (os : OS) (pid : pid_t) : Nat → Int → World → Option (Int × World)
  | 0, _, _ => none
  | fuel + 1, exit_code, w =>
    let r := sys_waitpid os pid 0 w
    let exit_code1 := r.1.status.getD exit_code
    if r.1.child = -1 ∧ r.1.err = EINTR then wait_blocking os pid fuel exit_code1 r.2
    else some (exit_code1, r.2)

/-- The loop of lines 233-238. -/
def wait_timed (os : OS) (timeout : Int) (watch : StopWatch) :
    Nat → Popen → World → Option (Outcome Int × Popen × World)
  | 0, _, _ => none
  | fuel + 1, self, w =>
    let s := StopWatch.seconds os watch w
    if s.1 < timeout then
      let r := self.poll os s.2
      if r.1 then some (Outcome.ret r.2.1.returncode, r.2.1, r.2.2)
      else wait_timed os timeout watch fuel r.2.1 (sleep_seconds os r.2.2).2
    else some (Outcome.throw (Error.TimeoutExpired "no time"), self, s.2)

/-- The method `Popen::wait` (lines 213-239). -/
def Popen.wait (os : OS) (fuel : Nat) (self : Popen) (timeout : Int) (w : World) :
    Option (Outcome Int × Popen × World) :=
  if self.returncode ≠ kBadReturnCode then some (Outcome.ret self.returncode, self, w)
  else if timeout < 0 then
    match wait_blocking os self.pid fuel os.indeterminate w with
    | none => none
    | some (exit_code, w1) => some (Outcome.ret exit_code, { self with returncode := exit_code }, w1)
  else
    let watch := StopWatch.start os w
    wait_timed os timeout watch.1 fuel self watch.2

/-- The method `Popen::send_signal` (lines 241-245). -/
def Popen.send_signal (os : OS) (self : Popen) (signum : Int) (w : World) : Bool × World :=
  if self.returncode ≠ kBadReturnCode then (false, w)
  else
    let r := sys_kill os self.pid signum w
    (decide (r.1 = 0), r.2)

/-- The method `Popen::terminate` (lines 247-249). -/
def Popen.terminate (os : OS) (self : Popen) (w : World) : Bool × World :=
  self.send_signal os PSIGTERM w

/-- The method `Popen::kill` (lines 250-252). -/
def Popen.kill (os : OS) (self : Popen) (w : World) : Bool × World :=
  self.send_signal os PSIGKILL w

/-- The method `Popen::close` (lines 140-159). -/
def Popen.close (os : OS) (fuel : Nat) (self : Popen) (w : World) :
    Option (Outcome Unit × Popen × World) :=
  let w1 := if self.cin ≠ kBadPipeValue then pipe_close self.cin w else w
  let w2 := if self.cout ≠ kBadPipeValue then pipe_close self.cout w1 else w1
  let w3 := if self.cerr ≠ kBadPipeValue then pipe_close self.cerr w2 else w2
  let s1 : Popen := { self with cin := kBadPipeValue, cout := kBadPipeValue, cerr := kBadPipeValue }
  if s1.pid ≠ 0 then
    match s1.wait os fuel kDefaultWaitTimeout w3 with
    | none => none
    | some (Outcome.throw e, s2, w4) => some (Outcome.throw e, s2, w4)
    | some (Outcome.ret _, s2, w4) =>
      some (Outcome.ret (), { s2 with pid := 0, returncode := kBadReturnCode, args := [] }, w4)
  else
    some (Outcome.ret (), { s1 with pid := 0, returncode := kBadReturnCode, args := [] }, w3)

/-- The move assignment `Popen::operator=(Popen&&)` (lines 114-135): the result
is the assigned-to handle and what is left of `other`.  A moved-from `args`
vector is empty. -/
def Popen.move_assign (os : OS) (fuel : Nat) (self other : Popen) (w : World) :
    Option (Outcome Unit × Popen × Popen × World) :=
  match self.close os fuel w with
  | none => none
  | some (Outcome.throw e, s1, w1) => some (Outcome.throw e, s1, other, w1)
  | some (Outcome.ret _, _, w1) =>
    some (Outcome.ret (),
      { cin := other.cin, cout := other.cout, cerr := other.cerr, pid := other.pid,
        returncode := other.returncode, args := other.args },
      { cin := kBadPipeValue, cout := kBadPipeValue, cerr := kBadPipeValue, pid := 0,
        returncode := -1000, args := [] },
      w1)

/-! ## Pipe pairs -/

/-- Modelled from the spec: the struct `PipePair` (§3, §4.1), declared in an
absent header: two descriptors, each one owned until it is closed or disowned;
a field that owns nothing holds the bad-pipe value. -/
structure PipePair where
  input : PipeHandle
  output : PipeHandle
deriving DecidableEq, Repr

/-- Modelled from the spec: a default-constructed `PipePair` owns nothing. -/
def PipePair.fresh : PipePair :=
  { input := kBadPipeValue, output := kBadPipeValue }

/-- Modelled from the spec: `close_input()` closes the input end, "idempotently
(closing an already-closed end is a no-op, not an error)" (§4.1). -/
def PipePair.close_input (self : PipePair) (w : World) : PipePair × World :=
  if self.input ≠ kBadPipeValue then
    ({ self with input := kBadPipeValue }, pipe_close self.input w)
  else (self, w)

/-- Modelled from the spec: `close_output()`, the same for the output end. -/
def PipePair.close_output (self : PipePair) (w : World) : PipePair × World :=
  if self.output ≠ kBadPipeValue then
    ({ self with output := kBadPipeValue }, pipe_close self.output w)
  else (self, w)

/-- Modelled from the spec: `disown()` "marks both ends as no longer owned by
this value without closing them" (§4.1). -/
def PipePair.disown (_self : PipePair) : PipePair :=
  { input := kBadPipeValue, output := kBadPipeValue }

/-- Modelled from the spec: the destructor of `PipePair` closes the ends the
pair still owns; "after `disown()`, destruction of the pair performs no close"
(§4.1). -/
def PipePair.destroy (self : PipePair) (w : World) : World :=
  let r := self.close_input w
  (r.1.close_output r.2).2

/-- Modelled from the spec: the test `if (pair)` of lines 381-386, declared in
an absent header: the pair still owns an end. -/
def PipePair.valid (self : PipePair) : Bool :=
  decide (self.input ≠ kBadPipeValue ∨ self.output ≠ kBadPipeValue)

/-- Modelled from the spec: `create()` "allocates a connected pair of
descriptors and fails with `ResourceError` if the OS cannot allocate one"
(§4.1); `pipe_create` is declared in an absent header. -/
def pipe_create (os : OS) (w : World) : Option PipePair × World :=
  ((os.pipe_create w.pipes).map (fun r => { input := r.1, output := r.2 }),
   { w with trace := w.trace ++ [Event.pipe_create], pipes := w.pipes + 1 })

/-! ## The process builder (lines 283-393) -/

/-- Modelled from the spec: the enum `PipeOption` (the Stream Routing Policy
of §3), declared in an absent header; `cout` is "merge into stdout" and `cerr`
is "merge into stderr". -/
inductive PipeOption where
  | inherit
  | cout
  | cerr
  | specific
  | pipe
  | close
deriving DecidableEq, Repr

/-- The class `ProcessBuilder`: the members `run_command` reads. -/
structure ProcessBuilder where
  cin_option : PipeOption
  cout_option : PipeOption
  cerr_option : PipeOption
  cin_pipe : PipeHandle
  cout_pipe : PipeHandle
  cerr_pipe : PipeHandle
  env : List (String × String)
  cwd : String
deriving DecidableEq, Repr

/-- Modelled from the spec: a default-constructed `ProcessBuilder` (the member
initialisers are in the absent header): every stream inherited, no caller
descriptor, no environment or directory override. -/
def ProcessBuilder.fresh : ProcessBuilder :=
  { cin_option := PipeOption.inherit, cout_option := PipeOption.inherit,
    cerr_option := PipeOption.inherit, cin_pipe := kBadPipeValue, cout_pipe := kBadPipeValue,
    cerr_pipe := kBadPipeValue, env := [], cwd := "" }

/-- The locals of `run_command` that live from line 292 to its end. -/
structure Frame where
  process : Popen
  cin_pair : PipePair
  cout_pair : PipePair
  cerr_pair : PipePair
  action : List FileAction
deriving DecidableEq, Repr

/-- The locals as declared in lines 292-299. -/
def Frame.fresh : Frame :=
  { process := Popen.fresh, cin_pair := PipePair.fresh, cout_pair := PipePair.fresh,
    cerr_pair := PipePair.fresh, action := [] }

/-- The test the C library applies to a descriptor number handed to
`posix_spawn_file_actions_addclose` / `_adddup2`: not negative and below
`OPEN_MAX`. -/
def OS.valid_fd (os : OS) (fd : PipeHandle) : Bool :=
  decide (0 ≤ fd ∧ fd < os.open_max)

/-- Whether `posix_spawn_file_actions_addclose` / `_adddup2` takes the action:
with a descriptor number that is not valid the call returns `EBADF` and adds
nothing. -/
def OS.accepts (os : OS) : FileAction → Bool
  | FileAction.addclose fd => os.valid_fd fd
  | FileAction.adddup2 fd newfd => os.valid_fd fd && os.valid_fd newfd

/-- One call of `posix_spawn_file_actions_addclose` / `_adddup2` on `action`.
The call is made in any case; the action joins the plan only when the library
accepts it, and `run_command` does not look at the result of the call (lines
301-345), so a refused action is dropped silently.  (A call that fails for lack
of memory is not modelled.) -/
def Frame.add (os : OS) (f : Frame) (a : FileAction) (w : World) : Frame × World :=
  (if os.accepts a then { f with action := f.action ++ [a] } else f,
   { w with trace := w.trace ++ [Event.file_action a] })

/-- Several such calls, in order. -/
def Frame.addAll (os : OS) (f : Frame) : List FileAction → World → Frame × World
  | [], w => (f, w)
  | a :: rest, w => let r := f.add os a w; Frame.addAll os r.1 rest r.2

/-- The stdin stage, lines 300-311.  The move assignment into `cin_pair` first
releases what the pair held (nothing, the pair being default-constructed). -/
def plan_cin (os : OS) (b : ProcessBuilder) (f : Frame) (w : World) :
    Outcome Unit × Frame × World :=
  match b.cin_option with
  | PipeOption.close =>
    let r := Frame.addAll os f [FileAction.addclose kStdInValue] w
    (Outcome.ret (), r.1, r.2)
  | PipeOption.specific =>
    let r := Frame.addAll os f [FileAction.adddup2 b.cin_pipe kStdInValue,
      FileAction.addclose b.cin_pipe] w
    (Outcome.ret (), r.1, r.2)
  | PipeOption.pipe =>
    match pipe_create os w with
    | (none, w1) => (Outcome.throw Error.pipe_create_failed, f, w1)
    | (some pair, w1) =>
      let w2 := f.cin_pair.destroy w1
      let f1 : Frame := { f with cin_pair := pair }
      let r := Frame.addAll os f1 [FileAction.addclose pair.output,
        FileAction.adddup2 pair.input kStdInValue, FileAction.addclose pair.input] w2
      (Outcome.ret (), { r.1 with process := { r.1.process with cin := pair.output } }, r.2)
  | _ => (Outcome.ret (), f, w)

/-- The stdout stage, lines 314-327; the merge into stderr is left for later. -/
def plan_cout (os : OS) (b : ProcessBuilder) (f : Frame) (w : World) :
    Outcome Unit × Frame × World :=
  match b.cout_option with
  | PipeOption.close =>
    let r := Frame.addAll os f [FileAction.addclose kStdOutValue] w
    (Outcome.ret (), r.1, r.2)
  | PipeOption.pipe =>
    match pipe_create os w with
    | (none, w1) => (Outcome.throw Error.pipe_create_failed, f, w1)
    | (some pair, w1) =>
      let w2 := f.cout_pair.destroy w1
      let f1 : Frame := { f with cout_pair := pair }
      let r := Frame.addAll os f1 [FileAction.addclose pair.input,
        FileAction.adddup2 pair.output kStdOutValue, FileAction.addclose pair.output] w2
      (Outcome.ret (), { r.1 with process := { r.1.process with cout := pair.input } }, r.2)
  | PipeOption.cerr => (Outcome.ret (), f, w)
  | PipeOption.specific =>
    let r := Frame.addAll os f [FileAction.adddup2 b.cout_pipe kStdOutValue,
      FileAction.addclose b.cout_pipe] w
    (Outcome.ret (), r.1, r.2)
  | _ => (Outcome.ret (), f, w)

/-- The stderr stage, lines 329-342. -/
def plan_cerr (os : OS) (b : ProcessBuilder) (f : Frame) (w : World) :
    Outcome Unit × Frame × World :=
  match b.cerr_option with
  | PipeOption.close =>
    let r := Frame.addAll os f [FileAction.addclose kStdErrValue] w
    (Outcome.ret (), r.1, r.2)
  | PipeOption.pipe =>
    match pipe_create os w with
    | (none, w1) => (Outcome.throw Error.pipe_create_failed, f, w1)
    | (some pair, w1) =>
      let w2 := f.cerr_pair.destroy w1
      let f1 : Frame := { f with cerr_pair := pair }
      let r := Frame.addAll os f1 [FileAction.addclose pair.input,
        FileAction.adddup2 pair.output kStdErrValue, FileAction.addclose pair.output] w2
      (Outcome.ret (), { r.1 with process := { r.1.process with cerr := pair.input } }, r.2)
  | PipeOption.cout =>
    let r := Frame.addAll os f [FileAction.adddup2 kStdOutValue kStdErrValue] w
    (Outcome.ret (), r.1, r.2)
  | PipeOption.specific =>
    let r := Frame.addAll os f [FileAction.adddup2 b.cerr_pipe kStdErrValue,
      FileAction.addclose b.cerr_pipe] w
    (Outcome.ret (), r.1, r.2)
  | _ => (Outcome.ret (), f, w)

/-- The deferred stdout merge, lines 344-346. -/
def plan_merge (os : OS) (b : ProcessBuilder) (f : Frame) (w : World) : Frame × World :=
  if b.cout_option = PipeOption.cerr then
    Frame.addAll os f [FileAction.adddup2 kStdErrValue kStdOutValue] w
  else (f, w)

/-- Lines 292-346 of `run_command`: the three stages in their fixed order, then
the deferred merge.  A throwing `pipe_create` stops the planning. -/
def plan_streams (os : OS) (b : ProcessBuilder) (w : World) : Outcome Unit × Frame × World :=
  match plan_cin os b Frame.fresh w with
  | (Outcome.throw e, f1, w1) => (Outcome.throw e, f1, w1)
  | (Outcome.ret _, f1, w1) =>
    match plan_cout os b f1 w1 with
    | (Outcome.throw e, f2, w2) => (Outcome.throw e, f2, w2)
    | (Outcome.ret _, f2, w2) =>
      match plan_cerr os b f2 w2 with
      | (Outcome.throw e, f3, w3) => (Outcome.throw e, f3, w3)
      | (Outcome.ret _, f3, w3) =>
        let r := plan_merge os b f3 w3
        (Outcome.ret (), r.1, r.2)

/-- Stack unwinding out of `run_command` when `e` is thrown after line 295: the
locals are destroyed in reverse order of declaration, `cerr_pair`, `cout_pair`,
`cin_pair`, then `process`, whose destructor (line 137) calls `close()`. -/
def unwind (os : OS) (fuel : Nat) (f : Frame) (e : Error) (w : World) :
    Option (Outcome Popen × World) :=
  let w1 := f.cerr_pair.destroy w
  let w2 := f.cout_pair.destroy w1
  let w3 := f.cin_pair.destroy w2
  match f.process.close os fuel w3 with
  | none => none
  | some (_, _, w4) => some (Outcome.throw e, w4)

/-- The environment block of lines 355-364: `none` is the inherited `environ`. -/
def env_block (b : ProcessBuilder) : Option (List String) :=
  if b.env = [] then none else some (b.env.map (fun kv => kv.1 ++ "=" ++ kv.2))

/-- The method `ProcessBuilder::run_command` (lines 283-393).  The guard that
restores the working directory is destroyed on both ways out of the block of
lines 365-378; on success the pairs are disowned before they are destroyed and
the local `process` is what the caller receives. -/
def ProcessBuilder.run_command (os : OS) (fuel : Nat) (b : ProcessBuilder)
    (command : CommandLine) (w : World) : Option (Outcome Popen × World) :=
  match command with
  | [] => some (Outcome.throw (Error.invalid_argument "command should not be empty"), w)
  | command0 :: rest =>
    let program := os.find_program command0
    if program = "" then
      some (Outcome.throw (Error.CommandNotFoundError ("command not found " ++ command0)), w)
    else
      match plan_streams os b w with
      | (Outcome.throw e, f, w1) => unwind os fuel f e w1
      | (Outcome.ret _, f, w1) =>
        let argv := program :: rest
        let w2 : World :=
          if b.cwd ≠ "" then { w1 with trace := w1.trace ++ [Event.setcwd b.cwd] } else w1
        let w3 : World :=
          { w2 with trace := w2.trace ++ [Event.posix_spawn program argv f.action (env_block b)] }
        let w4 : World := { w3 with trace := w3.trace ++ [Event.restore_cwd] }
        match os.posix_spawn program argv f.action with
        | none =>
          unwind os fuel f (Error.SpawnError ("posix_spawn failed with error: " ++ os.strerror)) w4
        | some pid =>
          let c1 := if f.cin_pair.valid then f.cin_pair.close_input w4 else (f.cin_pair, w4)
          let c2 := if f.cout_pair.valid then f.cout_pair.close_output c1.2 else (f.cout_pair, c1.2)
          let c3 := if f.cerr_pair.valid then f.cerr_pair.close_output c2.2 else (f.cerr_pair, c2.2)
          let process : Popen := { f.process with pid := pid, args := rest }
          let w5 := c3.1.disown.destroy c3.2
          let w6 := c2.1.disown.destroy w5
          let w7 := c1.1.disown.destroy w6
          some (Outcome.ret process, w7)

/-! ## Running the redirection plan in the child -/

/-- The child's descriptor table: what each descriptor number refers to. -/
abbrev FdTable := PipeHandle → Option Nat

/-- The table with descriptor `fd` pointed at `v`. -/
def FdTable.set (t : FdTable) (fd : PipeHandle) (v : Option Nat) : FdTable :=
  fun x => if x = fd then v else t x

/-- One file action in the child: `close(fd)` (closing a descriptor that is not
open is not an error for `posix_spawn`) or `dup2(fd, newfd)`, which fails when
`fd` is not open. -/
def exec_action (t : FdTable) : FileAction → Option FdTable
  | FileAction.addclose fd => some (t.set fd none)
  | FileAction.adddup2 fd newfd =>
    match t fd with
    | none => none
    | some x => some (t.set newfd (some x))

/-- The plan, run in the order the actions were added; `none` when a step fails. -/
def exec_plan (t : FdTable) : List FileAction → Option FdTable
  | [] => some t
  | a :: rest =>
    match exec_action t a with
    | none => none
    | some t1 => exec_plan t1 rest

/-! ## The run orchestrator (lines 397-442) -/

/-- Modelled from the spec: the struct `RunOptions` (the options of `run`,
§4.4), declared in an absent header: the stream routing, the two overrides and
`check`. -/
structure RunOptions where
  cin : PipeOption
  cout : PipeOption
  cerr : PipeOption
  env : List (String × String)
  cwd : String
  check : Bool
deriving DecidableEq, Repr

/-- Modelled from the spec: the struct `CompletedProcess` (§3), declared in an
absent header. -/
structure CompletedProcess where
  args : CommandLine
  returncode : Int
  cout : String
  cerr : String
deriving DecidableEq, Repr

/-- The constructor `Popen::Popen(CommandLine, const PopenOptions&)` (lines
98-109): the handle returned by `run_command` is move-assigned into the new
object and the temporary is then destroyed. -/
def Popen.construct (os : OS) (fuel : Nat) (command : CommandLine) (options : RunOptions)
    (w : World) : Option (Outcome Popen × World) :=
  let builder : ProcessBuilder :=
    { ProcessBuilder.fresh with
      cin_option := options.cin, cout_option := options.cout, cerr_option := options.cerr,
      env := options.env, cwd := options.cwd }
  match builder.run_command os fuel command w with
  | none => none
  | some (Outcome.throw e, w1) => some (Outcome.throw e, w1)
  | some (Outcome.ret tmp, w1) =>
    match Popen.fresh.move_assign os fuel tmp w1 with
    | none => none
    | some (Outcome.throw e, _, _, w2) => some (Outcome.throw e, w2)
    | some (Outcome.ret _, self, tmp1, w2) =>
      match tmp1.close os fuel w2 with
      | none => none
      | some (_, _, w3) => some (Outcome.ret self, w3)

/-- One drain thread of `run` (lines 403-410, 413-420): read to the end (a
failing read is swallowed and leaves the capture empty), then close. -/
def drain (os : OS) (fd : PipeHandle) (w : World) : String × World :=
  let w1 : World := { w with trace := w.trace ++ [Event.pipe_read_all fd] }
  ((os.pipe_read_all fd).getD "", pipe_close fd w1)

/-- The function `run` (lines 397-442).  The two drain threads write to
different fields; they are run one after the other here.  On both ways out the
destructor of `popen` runs. -/
def run (os : OS) (fuel : Nat) (command : CommandLine) (options : RunOptions) (w : World) :
    Option (Outcome CompletedProcess × World) :=
  match Popen.construct os fuel command options w with
  | none => none
  | some (Outcome.throw e, w1) => some (Outcome.throw e, w1)
  | some (Outcome.ret popen, w1) =>
    let d1 : String × Popen × World :=
      if popen.cout ≠ kBadPipeValue then
        let r := drain os popen.cout w1
        (r.1, { popen with cout := kBadPipeValue }, r.2)
      else ("", popen, w1)
    let d2 : String × Popen × World :=
      if d1.2.1.cerr ≠ kBadPipeValue then
        let r := drain os d1.2.1.cerr d1.2.2
        (r.1, { d1.2.1 with cerr := kBadPipeValue }, r.2)
      else ("", d1.2.1, d1.2.2)
    match d2.2.1.wait os fuel kDefaultWaitTimeout d2.2.2 with
    | none => none
    | some (Outcome.throw e, popen3, w4) =>
      match popen3.close os fuel w4 with
      | none => none
      | some (_, _, w5) => some (Outcome.throw e, w5)
    | some (Outcome.ret _, popen3, w4) =>
      let completed : CompletedProcess :=
        { args := command.tail, returncode := popen3.returncode, cout := d1.1, cerr := d2.1 }
      if options.check then
        match popen3.close os fuel w4 with
        | none => none
        | some (_, _, w5) =>
          some (Outcome.throw (Error.CalledProcessError
            ("failed to execute " ++ command.headD "") command completed.returncode
            completed.cout completed.cerr), w5)
      else
        match popen3.close os fuel w4 with
        | none => none
        | some (_, _, w5) => some (Outcome.ret completed, w5)

/-- The function `capture` (lines 444-446). -/
def capture (os : OS) (fuel : Nat) (command : CommandLine) (options : RunOptions) (w : World) :
    Option (Outcome CompletedProcess × World) :=
  run os fuel command options w


/-- The answer of a `waitpid` call that was interrupted by a signal: the test
of line 220. -/
def WaitResult.interrupted (r : WaitResult) : Prop :=
  r.child = -1 ∧ r.err = EINTR

instance (r : WaitResult) : Decidable r.interrupted := by
  unfold WaitResult.interrupted; infer_instance

/-- The pipe endpoints a handle still owns, in the order `close()` visits them. -/
def Popen.owned_pipes (self : Popen) : List PipeHandle :=
  [self.cin, self.cout, self.cerr].filter (fun fd => fd ≠ kBadPipeValue)

/-- A call on a handle. -/
inductive Call where
  | poll
  | wait (timeout : Int)
  | send_signal (signum : Int)
deriving DecidableEq, Repr

/-- What a call on a handle gave back. -/
inductive Reply where
  | poll (done : Bool)
  | wait (result : Outcome Int)
  | send_signal (delivered : Bool)
deriving DecidableEq, Repr

/-- One call on a handle. -/
def Popen.call (os : OS) (fuel : Nat) (self : Popen) (w : World) :
    Call → Option (Reply × Popen × World)
  | Call.poll => let r := self.poll os w; some (Reply.poll r.1, r.2.1, r.2.2)
  | Call.wait timeout =>
    match self.wait os fuel timeout w with
    | none => none
    | some (r, s1, w1) => some (Reply.wait r, s1, w1)
  | Call.send_signal signum => let r := self.send_signal os signum w; some (Reply.send_signal r.1, self, r.2)

/-- A sequence of calls on a handle, each on the state the previous one left. -/
def Popen.calls (os : OS) (fuel : Nat) (self : Popen) (w : World) :
    List Call → Option (List Reply × Popen × World)
  | [] => some ([], self, w)
  | c :: rest =>
    match self.call os fuel w c with
    | none => none
    | some (r, s1, w1) =>
      match s1.calls os fuel w1 rest with
      | none => none
      | some (rs, s2, w2) => some (r :: rs, s2, w2)

/-- What a reaped handle with cached status `c` answers to a call. -/
def cached_reply (c : Int) : Call → Reply
  | Call.poll => Reply.poll true
  | Call.wait _ => Reply.wait (Outcome.ret c)
  | Call.send_signal _ => Reply.send_signal false

/-! ## Exit statuses and concrete environments -/

/-- The status word `waitpid` stores for a child that exited normally with code
`c`: the low eight bits of `c` in bits 8-15 and zero in the low seven bits (the
encoding that `WIFEXITED` and `WEXITSTATUS` decode on Linux, macOS and the
BSDs). -/
def W_EXITCODE (c : Int) : Int := (c % 256) * 256

/-- The macro `WEXITSTATUS` of `<sys/wait.h>`: bits 8-15 of the status word. -/
def WEXITSTATUS (status : Int) : Int := (status / 256) % 256

/-- An operating system on which every program resolves to `/bin/<name>`, every
spawn yields pid 4242, the n-th pipe is the descriptors `3 + 2n`, `4 + 2n`, every
child has already exited normally with code `c`, and the clock advances by 10
ticks from one reading to the next. -/
def os_exit (c : Int) : OS :=
  { waitpid := fun _ pid _ => { child := pid, status := some (W_EXITCODE c), err := 0 },
    kill := fun _ _ _ => 0,
    now := fun n => 10 * (n : Int),
    pipe_create := fun n => some (3 + 2 * (n : Int), 4 + 2 * (n : Int)),
    pipe_read_all := fun _ => some "",
    find_program := fun name => "/bin/" ++ name,
    posix_spawn := fun _ _ _ => some 4242,
    strerror := "",
    indeterminate := 0,
    open_max := 1024,
    std_in_range := by decide }

/-- The same operating system with a child that never terminates: `waitpid`
with `WNOHANG` always answers 0. -/
def os_running : OS :=
  { os_exit 0 with waitpid := fun _ _ _ => { child := 0, status := none, err := 0 } }

/-- The same operating system, but `posix_spawn` fails. -/
def os_spawn_fails : OS :=
  { os_exit 0 with posix_spawn := fun _ _ _ => none, strerror := "Cannot allocate memory" }

/-- The same operating system, but only the first `pipe_create` succeeds. -/
def os_one_pipe : OS :=
  { os_exit 0 with pipe_create := fun n => if n = 0 then some (3, 4) else none }

/-- The options of `run` with every stream inherited. -/
def RunOptions.inherit_all (check : Bool) : RunOptions :=
  { cin := PipeOption.inherit, cout := PipeOption.inherit, cerr := PipeOption.inherit,
    env := [], cwd := "", check := check }

/-- A live handle: pid 4242, nothing piped, exit status not yet cached. -/
def Popen.live : Popen :=
  { Popen.fresh with pid := 4242 }

/-- A builder that pipes stdin and inherits the other two streams. -/
def builder_cin_pipe : ProcessBuilder :=
  { ProcessBuilder.fresh with cin_option := PipeOption.pipe }

/-- A builder that pipes stdin and stdout and inherits stderr. -/
def builder_two_pipes : ProcessBuilder :=
  { ProcessBuilder.fresh with cin_option := PipeOption.pipe, cout_option := PipeOption.pipe }

/-- A builder on which both merges are requested at once. -/
def builder_both_merges : ProcessBuilder :=
  { ProcessBuilder.fresh with cout_option := PipeOption.cerr, cerr_option := PipeOption.cout }

/-- A child descriptor table with the three standard descriptors open on three
different targets and nothing else open. -/
def std_table : FdTable :=
  fun fd => if fd = 0 then some 100 else if fd = 1 then some 101 else if fd = 2 then some 102 else none

/-- An operating system whose first two `waitpid` calls are interrupted by a
signal and whose third one collects a child that exited with code 0. -/
def os_interrupted_twice : OS :=
  { os_exit 0 with
    waitpid := fun n pid _ =>
      if n < 2 then { child := -1, status := none, err := EINTR }
      else { child := pid, status := some (W_EXITCODE 0), err := 0 } }

/-- A live handle that owns a stdin and a stdout pipe endpoint. -/
def Popen.live_piped : Popen :=
  { cin := 4, cout := 5, cerr := kBadPipeValue, pid := 4242, returncode := kBadReturnCode,
    args := ["-c", "exit 0"] }

/-- A handle whose exit status 0 has been cached. -/
def Popen.reaped : Popen :=
  { Popen.live_piped with returncode := 0 }

/-- The same operating system as `os_exit 0`, but the resolver does not find
`nonexistent-binary-xyz`. -/
def os_no_such_program : OS :=
  { os_exit 0 with
    find_program := fun name => if name = "nonexistent-binary-xyz" then "" else "/bin/" ++ name }

/-- The descriptors passed to `pipe_close` in a trace, in order. -/
def closes_of (trace : List Event) : List PipeHandle :=
  trace.filterMap (fun e => match e with
    | Event.pipe_close fd => some fd
    | _ => none)

/-! ## Lemmas -/

/-- The blocking loop returns after exactly `n + 1` calls when its first `n` calls are
interrupted and the next one is not, with the status word of the last call. -/
theorem wait_blocking_returns (os : OS) (pid : pid_t) (n : Nat) :
    ∀ (fuel : Nat) (exit_code : Int) (w : World),
      (∀ k, k < n → (os.waitpid (w.waits + k) pid 0).interrupted) →
      ¬ (os.waitpid (w.waits + n) pid 0).interrupted →
      n < fuel →
      ∃ code, wait_blocking os pid fuel exit_code w =
          some (code, { w with trace := w.trace ++ List.replicate (n + 1) (Event.waitpid pid 0),
                               waits := w.waits + (n + 1) }) ∧
        ∀ s, (os.waitpid (w.waits + n) pid 0).status = some s → code = s := by
  induction n with
  | zero =>
    intro fuel ec w _ hdone hfuel
    obtain ⟨f, rfl⟩ : ∃ f, fuel = f + 1 := ⟨fuel - 1, by omega⟩
    refine ⟨(os.waitpid w.waits pid 0).status.getD ec, ?_, ?_⟩
    · have hd : ¬ ((os.waitpid w.waits pid 0).child = -1 ∧ (os.waitpid w.waits pid 0).err = EINTR) := by
        simpa [WaitResult.interrupted] using hdone
      simp [wait_blocking, sys_waitpid, hd]
    · intro s hs
      simp at hs
      simp [hs]
  | succ n ih =>
    intro fuel ec w hintr hdone hfuel
    obtain ⟨f, rfl⟩ : ∃ f, fuel = f + 1 := ⟨fuel - 1, by omega⟩
    have h0 : (os.waitpid w.waits pid 0).child = -1 ∧ (os.waitpid w.waits pid 0).err = EINTR := by
      simpa [WaitResult.interrupted] using hintr 0 (by omega)
    obtain ⟨code, hcode, hstat⟩ := ih f ((os.waitpid w.waits pid 0).status.getD ec)
      (sys_waitpid os pid 0 w).2
      (by
        intro k hk
        have := hintr (k + 1) (by omega)
        simpa [sys_waitpid, Nat.add_assoc, Nat.add_comm 1 k] using this)
      (by simpa [sys_waitpid, Nat.add_assoc, Nat.add_comm 1 n] using hdone)
      (by omega)
    refine ⟨code, ?_, ?_⟩
    · have h0' : (sys_waitpid os pid 0 w).1.child = -1 ∧ (sys_waitpid os pid 0 w).1.err = EINTR := h0
      have hs0 : (sys_waitpid os pid 0 w).1.status = (os.waitpid w.waits pid 0).status := rfl
      simp only [wait_blocking, if_pos h0', hs0, hcode]
      simp [sys_waitpid, List.replicate_succ, Nat.add_assoc, Nat.add_comm 1]
    · intro s hs
      apply hstat
      simpa [sys_waitpid, Nat.add_assoc, Nat.add_comm 1 n] using hs

/-- The blocking loop does not return as long as every call is interrupted. -/
theorem wait_blocking_pending (os : OS) (pid : pid_t) (fuel : Nat) :
    ∀ (exit_code : Int) (w : World),
      (∀ k, k < fuel → (os.waitpid (w.waits + k) pid 0).interrupted) →
      wait_blocking os pid fuel exit_code w = none := by
  induction fuel with
  | zero => intro _ _ _; rfl
  | succ f ih =>
    intro ec w hintr
    have h0 : (sys_waitpid os pid 0 w).1.child = -1 ∧ (sys_waitpid os pid 0 w).1.err = EINTR := by
      simpa [WaitResult.interrupted, sys_waitpid] using hintr 0 (by omega)
    simp only [wait_blocking, if_pos h0]
    apply ih
    intro k hk
    have := hintr (k + 1) (by omega)
    simpa [sys_waitpid, Nat.add_assoc, Nat.add_comm 1 k] using this

/-- Any single call on a reaped handle is answered from the cache. -/
theorem Popen.call_cached (os : OS) (fuel : Nat) (self : Popen) (w : World) (c : Call)
    (h : self.returncode ≠ kBadReturnCode) :
    self.call os fuel w c = some (cached_reply self.returncode c, self, w) := by
  cases c <;> simp [Popen.call, Popen.poll, Popen.wait, Popen.send_signal, cached_reply, h]

/-- The three guarded `pipe_close` calls of `close()` close the owned endpoints, once each. -/
theorem close_trace_pipes (self : Popen) (w : World) :
    (if self.cerr ≠ kBadPipeValue then
        pipe_close self.cerr
          (if self.cout ≠ kBadPipeValue then
            pipe_close self.cout (if self.cin ≠ kBadPipeValue then pipe_close self.cin w else w)
           else (if self.cin ≠ kBadPipeValue then pipe_close self.cin w else w))
      else
        (if self.cout ≠ kBadPipeValue then
            pipe_close self.cout (if self.cin ≠ kBadPipeValue then pipe_close self.cin w else w)
           else (if self.cin ≠ kBadPipeValue then pipe_close self.cin w else w))) =
      { w with trace := w.trace ++ self.owned_pipes.map Event.pipe_close } := by
  by_cases h1 : self.cin = kBadPipeValue <;> by_cases h2 : self.cout = kBadPipeValue <;>
    by_cases h3 : self.cerr = kBadPipeValue <;>
    simp [Popen.owned_pipes, pipe_close, h1, h2, h3, List.filter]

/-- Closing a reset handle does nothing. -/
theorem close_fresh (os : OS) (fuel : Nat) (w : World) :
    Popen.fresh.close os fuel w = some (Outcome.ret (), Popen.fresh, w) := by
  simp [Popen.close, Popen.fresh]

/-- Closing an unreaped handle: the pipes are closed, then `waitpid` runs until it is not
interrupted, then the handle is reset. -/
theorem close_unreaped (os : OS) (self : Popen) (w : World) (n fuel : Nat)
    (hpid : self.pid ≠ 0) (hrc : self.returncode = kBadReturnCode)
    (hintr : ∀ k, k < n → (os.waitpid (w.waits + k) self.pid 0).interrupted)
    (hdone : ¬ (os.waitpid (w.waits + n) self.pid 0).interrupted)
    (hfuel : n < fuel) :
    ∃ w1, self.close os fuel w = some (Outcome.ret (), Popen.fresh, w1) ∧
      w1.trace = w.trace ++ self.owned_pipes.map Event.pipe_close ++
        List.replicate (n + 1) (Event.waitpid self.pid 0) ∧
      w1.waits = w.waits + (n + 1) := by
  obtain ⟨code, hcode, -⟩ := wait_blocking_returns os self.pid n fuel os.indeterminate
    { w with trace := w.trace ++ self.owned_pipes.map Event.pipe_close } hintr hdone hfuel
  refine ⟨{ w with trace := w.trace ++ self.owned_pipes.map Event.pipe_close ++
      List.replicate (n + 1) (Event.waitpid self.pid 0), waits := w.waits + (n + 1) }, ?_, rfl, rfl⟩
  simp only [Popen.close, close_trace_pipes, Popen.wait, hrc, ne_eq, not_true_eq_false, if_false,
    hpid, not_false_eq_true, if_true, kDefaultWaitTimeout]
  simp [hcode, Popen.fresh]

/-- Closing an unreaped handle does not return while `waitpid` keeps being interrupted. -/
theorem close_pending (os : OS) (self : Popen) (w : World) (n fuel : Nat)
    (hpid : self.pid ≠ 0) (hrc : self.returncode = kBadReturnCode)
    (hintr : ∀ k, k < n → (os.waitpid (w.waits + k) self.pid 0).interrupted)
    (hfuel : fuel ≤ n) :
    self.close os fuel w = none := by
  have hp := wait_blocking_pending os self.pid fuel os.indeterminate
    { w with trace := w.trace ++ self.owned_pipes.map Event.pipe_close }
    (fun k hk => hintr k (by omega))
  simp only [Popen.close, close_trace_pipes, Popen.wait, hrc, ne_eq, not_true_eq_false, if_false,
    hpid, not_false_eq_true, if_true, kDefaultWaitTimeout]
  simp [hp]

/-- Closing a handle that has no process or a cached status only closes its pipes. -/
theorem close_settled (os : OS) (fuel : Nat) (self : Popen) (w : World)
    (h : self.pid = 0 ∨ self.returncode ≠ kBadReturnCode) :
    self.close os fuel w = some (Outcome.ret (), Popen.fresh,
      { w with trace := w.trace ++ self.owned_pipes.map Event.pipe_close }) := by
  by_cases hpid : self.pid = 0
  · simp only [Popen.close, close_trace_pipes, hpid, ne_eq, not_true_eq_false, if_false]
    simp [Popen.fresh]
  · have hrc : self.returncode ≠ kBadReturnCode := by
      rcases h with h | h
      · exact absurd h hpid
      · exact h
    simp only [Popen.close, close_trace_pipes, hpid, ne_eq, not_false_eq_true, if_true,
      Popen.wait, hrc]
    simp [Popen.fresh]

/-- Move assignment is `close()` on the target followed by the field copies and the reset
of the source. -/
theorem move_assign_eq (os : OS) (fuel : Nat) (self other : Popen) (w w1 : World)
    (h : self.close os fuel w = some (Outcome.ret (), Popen.fresh, w1)) :
    self.move_assign os fuel other w = some (Outcome.ret (), other, Popen.fresh, w1) := by
  simp [Popen.move_assign, h, Popen.fresh, kBadReturnCode]

/-- On the steady clock `monotonic_seconds` always returns 10: the gap between its own two
readings. -/
theorem monotonic_seconds_steady (w : World) (h : w.needs_init = true) :
    monotonic_seconds os_running w =
      (10, { w with ticks := w.ticks + 2, begin := 10 * (w.ticks : Int) }) := by
  cases w with
  | mk trace waits kills ticks pipes needs_init begin =>
    simp only at h
    subst h
    simp [monotonic_seconds, steady_now, os_running, os_exit]
    ring

/-- The static `needs_init` never changes. -/
theorem monotonic_seconds_needs_init (os : OS) (w : World) :
    (monotonic_seconds os w).2.needs_init = w.needs_init := by
  by_cases h : w.needs_init = true <;> simp [monotonic_seconds, steady_now, h]

/-- The static `needs_init` survives `sleep_seconds`. -/
theorem sleep_seconds_needs_init (os : OS) (w : World) :
    (sleep_seconds os w).2.needs_init = w.needs_init := by
  simp [sleep_seconds, StopWatch.start, StopWatch.seconds, monotonic_seconds_needs_init]

/-- Polling a running child answers false and leaves the handle alone. -/
theorem poll_running (w : World) :
    Popen.live.poll os_running w =
      (false, Popen.live, (sys_waitpid os_running 4242 WNOHANG w).2) := by
  simp [Popen.poll, Popen.live, Popen.fresh, sys_waitpid, os_running]

/-- The timed loop never leaves: the stop watch reads 0 on each round. -/
theorem wait_timed_spins (fuel : Nat) :
    ∀ w : World, w.needs_init = true →
      wait_timed os_running 15 { mStart := 10 } fuel Popen.live w = none := by
  induction fuel with
  | zero => intro w _; rfl
  | succ f ih =>
    intro w h
    have h1 := monotonic_seconds_steady w h
    simp only [wait_timed, StopWatch.seconds, h1, poll_running]
    simp only [sub_self, show (0 : Int) < 15 by decide, if_true, Bool.false_eq_true, if_false]
    apply ih
    rw [sleep_seconds_needs_init]
    exact h

/-- An uninterrupted blocking `wait` returns and caches the status word as `waitpid` stored it. -/
theorem wait_returns_status_word (os : OS) (fuel : Nat) (self : Popen) (w : World) (s : Int)
    (hrc : self.returncode = kBadReturnCode)
    (hdone : ¬ (os.waitpid w.waits self.pid 0).interrupted)
    (hs : (os.waitpid w.waits self.pid 0).status = some s) :
    self.wait os (fuel + 1) (-1) w =
      some (Outcome.ret s, { self with returncode := s }, (sys_waitpid os self.pid 0 w).2) := by
  obtain ⟨code, hcode, hst⟩ := wait_blocking_returns os self.pid 0 (fuel + 1) os.indeterminate w
    (by intro k hk; omega) (by simpa using hdone) (by omega)
  have hc : code = s := hst s (by simpa using hs)
  subst hc
  simp only [Popen.wait, hrc, ne_eq, not_true_eq_false, if_false, hcode]
  simp [sys_waitpid]

/-- With `check` set `run` never returns normally, whatever the exit status. -/
theorem run_check_never_returns (os : OS) (fuel : Nat) (command : CommandLine)
    (options : RunOptions) (w : World) (h : options.check = true)
    (c : CompletedProcess) (w1 : World) :
    run os fuel command options w ≠ some (Outcome.ret c, w1) := by
  intro heq
  unfold run at heq
  simp only [h, if_true] at heq
  split at heq
  · simp at heq
  · simp at heq
  · split at heq
    · simp at heq
    · split at heq <;> simp at heq
    · split at heq <;> simp at heq

/-- Running a concatenated plan is running its two halves in turn. -/
theorem exec_plan_append (t : FdTable) (p q : List FileAction) :
    exec_plan t (p ++ q) =
      match exec_plan t p with
      | none => none
      | some t1 => exec_plan t1 q := by
  induction p generalizing t with
  | nil => rfl
  | cons a rest ih =>
    simp only [List.cons_append, exec_plan]
    cases exec_action t a with
    | none => rfl
    | some t1 => exact ih t1

/-- Pointing a descriptor at what it already refers to changes nothing. -/
theorem FdTable.set_same (t : FdTable) (fd : PipeHandle) (v : Option Nat) (h : t fd = v) :
    t.set fd v = t := by
  funext x
  by_cases hx : x = fd
  · simp [FdTable.set, hx, h]
  · simp [FdTable.set, hx]

/-- Adding actions appends the accepted ones to the plan and logs every call. -/
theorem addAll_action (os : OS) (f : Frame) (as : List FileAction) (w : World) :
    (Frame.addAll os f as w).1 = { f with action := f.action ++ as.filter os.accepts } ∧
      (Frame.addAll os f as w).2 =
        { w with trace := w.trace ++ as.map Event.file_action } := by
  induction as generalizing f w with
  | nil => simp [Frame.addAll]
  | cons a rest ih =>
    simp only [Frame.addAll]
    obtain ⟨h1, h2⟩ := ih (f.add os a w).1 (f.add os a w).2
    rw [h1, h2]
    by_cases ha : os.accepts a = true <;> simp [Frame.add, ha, List.filter]

/-- The three standard descriptors are valid descriptor numbers. -/
theorem valid_fd_std (os : OS) :
    os.valid_fd kStdInValue = true ∧ os.valid_fd kStdOutValue = true ∧
      os.valid_fd kStdErrValue = true := by
  have h : (2 : Int) < os.open_max := os.std_in_range
  have h0 : (0 : Int) < os.open_max := by omega
  have h1 : (1 : Int) < os.open_max := by omega
  simp [OS.valid_fd, kStdInValue, kStdOutValue, kStdErrValue, h, h0, h1]

/-- The two merge actions are always accepted. -/
theorem accepts_merge (os : OS) :
    os.accepts (FileAction.adddup2 kStdOutValue kStdErrValue) = true ∧
      os.accepts (FileAction.adddup2 kStdErrValue kStdOutValue) = true := by
  obtain ⟨-, h1, h2⟩ := valid_fd_std os
  simp [OS.accepts, h1, h2]

/-- After `dup2(1, 2)` a further `dup2(2, 1)` changes nothing. -/
theorem exec_merge_pair (t : FdTable) :
    exec_plan t [FileAction.adddup2 kStdOutValue kStdErrValue,
        FileAction.adddup2 kStdErrValue kStdOutValue] =
      exec_plan t [FileAction.adddup2 kStdOutValue kStdErrValue] := by
  cases h : t kStdOutValue with
  | none => simp [exec_plan, exec_action, h]
  | some x =>
    have h2 : (t.set kStdErrValue (some x)) kStdErrValue = some x := by simp [FdTable.set]
    have h1 : (t.set kStdErrValue (some x)) kStdOutValue = some x := by
      simp [FdTable.set, kStdOutValue, kStdErrValue, h]
      exact h
    simp only [exec_plan, exec_action, h, h2]
    rw [FdTable.set_same _ _ _ h1]

/-- The plan when both merges are requested. -/
theorem plan_streams_both_merges (os : OS) (b : ProcessBuilder) (w : World)
    (hout : b.cout_option = PipeOption.cerr) (herr : b.cerr_option = PipeOption.cout) :
    plan_streams os b w =
      match plan_cin os b Frame.fresh w with
      | (Outcome.throw e, f1, w1) => (Outcome.throw e, f1, w1)
      | (Outcome.ret _, f1, w1) =>
        (Outcome.ret (),
         { f1 with action := f1.action ++ [FileAction.adddup2 kStdOutValue kStdErrValue,
             FileAction.adddup2 kStdErrValue kStdOutValue] },
         { w1 with trace := w1.trace ++
             [Event.file_action (FileAction.adddup2 kStdOutValue kStdErrValue),
              Event.file_action (FileAction.adddup2 kStdErrValue kStdOutValue)] }) := by
  unfold plan_streams
  rcases hc : plan_cin os b Frame.fresh w with ⟨o, f1, w1⟩
  cases o with
  | throw e => rfl
  | ret u =>
    simp [plan_cout, plan_cerr, plan_merge, hout, herr, addAll_action, List.filter, accepts_merge]

/-- The plan when only stderr is merged into stdout. -/
theorem plan_streams_stderr_merge_only (os : OS) (b : ProcessBuilder) (w : World)
    (hout : b.cout_option = PipeOption.inherit) (herr : b.cerr_option = PipeOption.cout) :
    plan_streams os b w =
      match plan_cin os b Frame.fresh w with
      | (Outcome.throw e, f1, w1) => (Outcome.throw e, f1, w1)
      | (Outcome.ret _, f1, w1) =>
        (Outcome.ret (),
         { f1 with action := f1.action ++ [FileAction.adddup2 kStdOutValue kStdErrValue] },
         { w1 with trace := w1.trace ++
             [Event.file_action (FileAction.adddup2 kStdOutValue kStdErrValue)] }) := by
  unfold plan_streams
  rcases hc : plan_cin os b Frame.fresh w with ⟨o, f1, w1⟩
  cases o with
  | throw e => rfl
  | ret u =>
    simp [plan_cout, plan_cerr, plan_merge, hout, herr, addAll_action, List.filter, accepts_merge]

/-- What `dup2(1, 2)` leaves behind. -/
theorem exec_stderr_merge (t t1 : FdTable)
    (h : exec_plan t [FileAction.adddup2 kStdOutValue kStdErrValue] = some t1) :
    t1 kStdOutValue = t1 kStdErrValue ∧ t1 kStdOutValue = t kStdOutValue ∧
      t kStdOutValue ≠ none := by
  cases hx : t kStdOutValue with
  | none => simp [exec_plan, exec_action, hx] at h
  | some x =>
    simp only [exec_plan, exec_action, hx, Option.some.injEq] at h
    subst h
    have h1 : (1 : Int) ≠ 2 := by decide
    simp [FdTable.set, kStdOutValue, kStdErrValue, h1]
    exact hx

/-- The stdin stage leaves `process.returncode` alone. -/
theorem plan_cin_process (os : OS) (b : ProcessBuilder) (f : Frame) (w : World) :
    (plan_cin os b f w).2.1.process.returncode = f.process.returncode := by
  unfold plan_cin
  split
  · simp [addAll_action]
  · simp [addAll_action]
  · split <;> simp [addAll_action]
  · rfl

/-- The stdout stage leaves `process.returncode` alone. -/
theorem plan_cout_process (os : OS) (b : ProcessBuilder) (f : Frame) (w : World) :
    (plan_cout os b f w).2.1.process.returncode = f.process.returncode := by
  unfold plan_cout
  split
  · simp [addAll_action]
  · split <;> simp [addAll_action]
  · rfl
  · simp [addAll_action]
  · rfl

/-- The stderr stage leaves `process.returncode` alone. -/
theorem plan_cerr_process (os : OS) (b : ProcessBuilder) (f : Frame) (w : World) :
    (plan_cerr os b f w).2.1.process.returncode = f.process.returncode := by
  unfold plan_cerr
  split
  · simp [addAll_action]
  · split <;> simp [addAll_action]
  · simp [addAll_action]
  · simp [addAll_action]
  · rfl

/-- Planning leaves the exit status of `process` unset. -/
theorem plan_streams_process (os : OS) (b : ProcessBuilder) (w : World) :
    (plan_streams os b w).2.1.process.returncode = kBadReturnCode := by
  have h1 := plan_cin_process os b Frame.fresh w
  unfold plan_streams
  rcases hc : plan_cin os b Frame.fresh w with ⟨o1, f1, w1⟩
  rw [hc] at h1
  cases o1 with
  | throw e => simpa [Frame.fresh, Popen.fresh] using h1
  | ret u1 =>
    have h2 := plan_cout_process os b f1 w1
    rcases hc2 : plan_cout os b f1 w1 with ⟨o2, f2, w2⟩
    rw [hc2] at h2
    cases o2 with
    | throw e => simp only [hc2] at h1 h2 ⊢; rw [h2, h1]; rfl
    | ret u2 =>
      have h3 := plan_cerr_process os b f2 w2
      rcases hc3 : plan_cerr os b f2 w2 with ⟨o3, f3, w3⟩
      rw [hc3] at h3
      cases o3 with
      | throw e => simp only [hc2, hc3] at h1 h2 h3 ⊢; rw [h3, h2, h1]; rfl
      | ret u3 =>
        simp only [hc2, hc3] at h1 h2 h3 ⊢
        have h4 : (plan_merge os b f3 w3).1.process.returncode = f3.process.returncode := by
          unfold plan_merge
          split <;> simp [addAll_action]
        rw [h4, h3, h2, h1]; rfl

/-- Unwinding never returns a handle. -/
theorem unwind_throws (os : OS) (fuel : Nat) (f : Frame) (e : Error) (w : World)
    (proc : Popen) (w1 : World) :
    unwind os fuel f e w ≠ some (Outcome.ret proc, w1) := by
  unfold unwind
  intro h
  simp only at h
  split at h <;> simp at h

/-- A handle returned by `run_command` carries the pid the spawn call produced and no cached
exit status. -/
theorem run_command_returns_unreaped (os : OS) (fuel : Nat) (b : ProcessBuilder)
    (command : CommandLine) (w w1 : World) (proc : Popen)
    (h : b.run_command os fuel command w = some (Outcome.ret proc, w1)) :
    proc.returncode = kBadReturnCode ∧
      ∃ program argv actions, os.posix_spawn program argv actions = some proc.pid := by
  unfold ProcessBuilder.run_command at h
  cases command with
  | nil => simp at h
  | cons command0 rest =>
    simp only at h
    split at h
    · simp at h
    · have hp := plan_streams_process os b w
      rcases hs : plan_streams os b w with ⟨o, f, w2⟩
      rw [hs] at h hp
      cases o with
      | throw e => exact absurd h (unwind_throws os fuel f e w2 proc w1)
      | ret u =>
        simp only at h hp
        cases hsp : os.posix_spawn (os.find_program command0) (os.find_program command0 :: rest)
            f.action with
        | none =>
          rw [hsp] at h
          exact absurd h (unwind_throws os fuel f _ _ proc w1)
        | some pid =>
          rw [hsp] at h
          simp only [Option.some.injEq, Prod.mk.injEq, Outcome.ret.injEq] at h
          obtain ⟨hproc, -⟩ := h
          subst hproc
          exact ⟨hp, _, _, _, hsp⟩

/-- C1: `run` is claimed to throw `CalledProcessError` exactly when `check` is set and the
exit code is non-zero, and to return normally with `check` set and exit code 0.  Lines 433-440
test `options.check` alone: for the command `true`, whose child exits with status 0, `run`
with `check` set throws `CalledProcessError` with recorded return code 0. -/
theorem run_check_throws_on_exit_zero :
    (run (os_exit 0) 1 ["true"] (RunOptions.inherit_all true) World.start).map Prod.fst =
      some (Outcome.throw
        (Error.CalledProcessError "failed to execute true" ["true"] 0 "" "")) := by
  decide

/-- C2: for a child that exits normally with code `c`, `wait(timeout < 0)`, `returncode` and
the record made by `run` are claimed to hold exactly `c`.  Lines 228 and 210 store the status
word of `waitpid` undecoded: for every `c` the blocking `wait` returns and caches
`W_EXITCODE c`; for the exit code 7 that is 1792, which is also what `run` records, while
`WEXITSTATUS` of that word is 7. -/
theorem wait_returns_raw_status_word :
    (∀ c : Int, (Popen.live.wait (os_exit c) 1 (-1) World.start).map
        (fun r => (r.1, r.2.1.returncode)) =
      some (Outcome.ret (W_EXITCODE c), W_EXITCODE c)) ∧
      W_EXITCODE 7 = 1792 ∧ WEXITSTATUS (W_EXITCODE 7) = 7 ∧
      (run (os_exit 7) 1 ["sh", "-c", "exit 7"] (RunOptions.inherit_all false)
          World.start).map Prod.fst =
        some (Outcome.ret
          { args := ["-c", "exit 7"], returncode := 1792, cout := "", cerr := "" }) ∧
      (run (os_exit 7) 1 ["sh", "-c", "exit 7"] (RunOptions.inherit_all true)
          World.start).map Prod.fst =
        some (Outcome.throw (Error.CalledProcessError "failed to execute sh"
          ["sh", "-c", "exit 7"] 1792 "" "")) := by
  refine ⟨?_, by decide, by decide, by decide, by decide⟩
  intro c
  have h := wait_returns_status_word (os_exit c) 0 Popen.live World.start (W_EXITCODE c) rfl
    (by simp [WaitResult.interrupted, os_exit, Popen.live]) rfl
  rw [h]
  rfl

/-- C3: `wait(timeout)` with `timeout >= 0` on a process that does not terminate is claimed
to fail with `TimeoutExpired` once the clock has advanced by `timeout`, because the stop watch
reads the time elapsed since it was started.  Line 70 stores `true` into `needs_init`, so
`monotonic_seconds` restarts its origin on every call: on a clock that advances 10 ticks per
reading, with a child that keeps running, `wait(15)` has not returned after any number of
rounds; the stop watch started at the first reading reads 0 at every later reading `n`, when
the clock has advanced by `10 * n`. -/
theorem wait_timeout_never_expires :
    (∀ fuel : Nat, Popen.live.wait os_running fuel 15 World.start = none) ∧
      (∀ n : Nat, (StopWatch.seconds os_running (StopWatch.start os_running World.start).1
          { World.start with ticks := n }).1 = 0) ∧
      (∀ n : Nat, os_running.now n - os_running.now 0 = 10 * (n : Int)) := by
  refine ⟨?_, ?_, ?_⟩
  · intro fuel
    have h0 := monotonic_seconds_steady World.start rfl
    simp only [Popen.wait, Popen.live, Popen.fresh, StopWatch.start, h0]
    simp only [ne_eq, not_true_eq_false, if_false, show ¬ ((15 : Int) < 0) by decide]
    exact wait_timed_spins fuel _ rfl
  · intro n
    have h0 := monotonic_seconds_steady World.start rfl
    have h1 := monotonic_seconds_steady { World.start with ticks := n } rfl
    simp [StopWatch.seconds, StopWatch.start, h0, h1]
  · intro n
    simp [os_running, os_exit]

/-- C4: once an exit status is cached (`returncode` differs from the unset sentinel), every
later sequence of `poll()`, `wait(t)` for any `t`, and `send_signal(s)` calls is answered from
the cache: `poll` returns true, `wait` returns the cached status, `send_signal` returns false,
the handle is unchanged, and the world is unchanged, so no `waitpid` or `kill` is issued (and
the clock is not read). -/
theorem reaped_handle_absorbing (os : OS) (fuel : Nat) (self : Popen) (w : World)
    (cs : List Call) (h : self.returncode ≠ kBadReturnCode) :
    self.calls os fuel w cs = some (cs.map (cached_reply self.returncode), self, w) := by
  induction cs with
  | nil => rfl
  | cons c rest ih => simp [Popen.calls, Popen.call_cached os fuel self w c h, ih]

theorem reaped_handle_absorbing_witness :
    Popen.reaped.returncode ≠ kBadReturnCode ∧
      Popen.reaped.calls (os_exit 0) 0 World.start
          [Call.poll, Call.wait (-1), Call.send_signal 15, Call.wait 5, Call.poll] =
        some ([Call.poll, Call.wait (-1), Call.send_signal 15, Call.wait 5, Call.poll].map
          (cached_reply Popen.reaped.returncode), Popen.reaped, World.start) :=
  ⟨by decide, reaped_handle_absorbing (os_exit 0) 0 Popen.reaped World.start _ (by decide)⟩

/-- C5: for a handle with `pid != 0` and no cached exit status, `close()` closes the owned
pipes and then calls `waitpid(pid, _, 0)` on the handle's own pid, again after each `EINTR`:
when the first `n` answers are interruptions and the next one is not, `close()` returns after
exactly `n + 1` such calls with the handle reset (pid 0), and it has not returned after `n`
or fewer.  A handle returned by `run_command` is in that state: it carries the pid of the
spawn call (non-zero when `posix_spawn` succeeds) and no cached status. -/
theorem close_reaps_before_reset (os : OS) (self : Popen) (w : World) (n fuel : Nat)
    (hpid : self.pid ≠ 0) (hrc : self.returncode = kBadReturnCode)
    (hintr : ∀ k, k < n → (os.waitpid (w.waits + k) self.pid 0).interrupted)
    (hdone : ¬ (os.waitpid (w.waits + n) self.pid 0).interrupted)
    (hfuel : n < fuel) :
    (∃ w1, self.close os fuel w = some (Outcome.ret (), Popen.fresh, w1) ∧
        w1.trace = w.trace ++ self.owned_pipes.map Event.pipe_close ++
          List.replicate (n + 1) (Event.waitpid self.pid 0) ∧
        w1.waits = w.waits + (n + 1)) ∧
      (∀ fuel0, fuel0 ≤ n → self.close os fuel0 w = none) ∧
      (∀ (b : ProcessBuilder) (fuel0 : Nat) (command : CommandLine) (w0 w2 : World)
          (proc : Popen),
        b.run_command os fuel0 command w0 = some (Outcome.ret proc, w2) →
          proc.returncode = kBadReturnCode ∧
            ∃ program argv actions, os.posix_spawn program argv actions = some proc.pid) :=
  ⟨close_unreaped os self w n fuel hpid hrc hintr hdone hfuel,
   fun fuel0 h0 => close_pending os self w n fuel0 hpid hrc hintr h0,
   fun b fuel0 command w0 w2 proc h =>
     run_command_returns_unreaped os fuel0 b command w0 w2 proc h⟩

theorem close_reaps_before_reset_witness :
    (Popen.live_piped.pid ≠ 0 ∧ Popen.live_piped.returncode = kBadReturnCode ∧
      (∀ k, k < 2 → (os_interrupted_twice.waitpid (World.start.waits + k)
        Popen.live_piped.pid 0).interrupted) ∧
      ¬ (os_interrupted_twice.waitpid (World.start.waits + 2)
        Popen.live_piped.pid 0).interrupted) ∧
      ∃ w1, Popen.live_piped.close os_interrupted_twice 3 World.start =
          some (Outcome.ret (), Popen.fresh, w1) ∧
        w1.trace = World.start.trace ++ Popen.live_piped.owned_pipes.map Event.pipe_close ++
          List.replicate (2 + 1) (Event.waitpid Popen.live_piped.pid 0) ∧
        w1.waits = World.start.waits + (2 + 1) :=
  ⟨by decide,
   (close_reaps_before_reset os_interrupted_twice Popen.live_piped World.start 2 3
      (by decide) (by decide) (by decide) (by decide) (by decide)).1⟩

/-- C6: `close()` is idempotent.  Whenever the blocking `waitpid` of an unreaped handle is
eventually not interrupted (nothing is needed for a handle without process or with a cached
status), the first `close()` returns, its trace is the `pipe_close` of each owned endpoint
(`cin`, `cout`, `cerr` different from the bad-pipe value), once each and in that order,
followed only by `waitpid` calls, and it leaves the reset handle (pipes bad, pid 0,
returncode unset, args empty).  A `close()` of the reset handle, in any world, issues no call
and changes nothing.  Move assignment leaves its source in that reset state. -/
theorem close_idempotent (os : OS) (self : Popen) (w : World) (fuel : Nat)
    (hterm : self.pid = 0 ∨ self.returncode ≠ kBadReturnCode ∨
      ∃ n, n < fuel ∧ (∀ k, k < n → (os.waitpid (w.waits + k) self.pid 0).interrupted) ∧
        ¬ (os.waitpid (w.waits + n) self.pid 0).interrupted) :
    ∃ w1 m, self.close os fuel w = some (Outcome.ret (), Popen.fresh, w1) ∧
      w1.trace = w.trace ++ self.owned_pipes.map Event.pipe_close ++
        List.replicate m (Event.waitpid self.pid 0) ∧
      (∀ fuel2 w2, Popen.fresh.close os fuel2 w2 = some (Outcome.ret (), Popen.fresh, w2)) ∧
      (∀ other, self.move_assign os fuel other w =
        some (Outcome.ret (), other, Popen.fresh, w1)) := by
  have key : ∃ w1 m, self.close os fuel w = some (Outcome.ret (), Popen.fresh, w1) ∧
      w1.trace = w.trace ++ self.owned_pipes.map Event.pipe_close ++
        List.replicate m (Event.waitpid self.pid 0) := by
    by_cases hs : self.pid = 0 ∨ self.returncode ≠ kBadReturnCode
    · exact ⟨_, 0, close_settled os fuel self w hs, by simp⟩
    · have hpid : self.pid ≠ 0 := fun h => hs (Or.inl h)
      have hrc : self.returncode = kBadReturnCode := by
        by_contra h
        exact hs (Or.inr h)
      rcases hterm with h | h | ⟨n, hfuel, hintr, hdone⟩
      · exact absurd h hpid
      · exact absurd hrc h
      · obtain ⟨w1, h1, h2, -⟩ := close_unreaped os self w n fuel hpid hrc hintr hdone hfuel
        exact ⟨w1, n + 1, h1, h2⟩
  obtain ⟨w1, m, h1, h2⟩ := key
  exact ⟨w1, m, h1, h2, fun fuel2 w2 => close_fresh os fuel2 w2,
    fun other => move_assign_eq os fuel self other w w1 h1⟩

theorem close_idempotent_witness :
    (2 < 3 ∧ (∀ k, k < 2 → (os_interrupted_twice.waitpid (World.start.waits + k)
        Popen.live_piped.pid 0).interrupted) ∧
      ¬ (os_interrupted_twice.waitpid (World.start.waits + 2)
        Popen.live_piped.pid 0).interrupted) ∧
      ∃ w1 m, Popen.live_piped.close os_interrupted_twice 3 World.start =
          some (Outcome.ret (), Popen.fresh, w1) ∧
        closes_of w1.trace = [4, 5] ∧
        Popen.fresh.close os_interrupted_twice 0 w1 = some (Outcome.ret (), Popen.fresh, w1) ∧
        w1.trace = World.start.trace ++ Popen.live_piped.owned_pipes.map Event.pipe_close ++
          List.replicate m (Event.waitpid Popen.live_piped.pid 0) := by
  refine ⟨by decide, ?_⟩
  obtain ⟨w1, m, h1, h2, h3, -⟩ :=
    close_idempotent os_interrupted_twice Popen.live_piped World.start 3
      (Or.inr (Or.inr ⟨2, by decide, by decide, by decide⟩))
  refine ⟨w1, m, h1, ?_, h3 0 w1, h2⟩
  rw [h2]
  simp [closes_of, World.start, Popen.owned_pipes, Popen.live_piped, kBadPipeValue,
    List.filterMap_append, List.filterMap_replicate]

/-- C7: `run_command` checks its failures in a fixed order before it touches anything: the
empty command throws `invalid_argument`, whatever the resolver would say; a non-empty command
whose element 0 the resolver maps to the empty path throws `CommandNotFoundError`; in both
cases the world is returned as it was, so no pipe was created, no file action added and
`posix_spawn` was not called. -/
theorem run_command_fails_before_planning (os : OS) (fuel : Nat) (b : ProcessBuilder)
    (w : World) :
    b.run_command os fuel [] w =
        some (Outcome.throw (Error.invalid_argument "command should not be empty"), w) ∧
      ∀ (command0 : String) (rest : List String), os.find_program command0 = "" →
        b.run_command os fuel (command0 :: rest) w =
          some (Outcome.throw
            (Error.CommandNotFoundError ("command not found " ++ command0)), w) := by
  refine ⟨rfl, ?_⟩
  intro command0 rest h
  simp [ProcessBuilder.run_command, h]

theorem run_command_fails_before_planning_witness :
    os_no_such_program.find_program "nonexistent-binary-xyz" = "" ∧
      builder_two_pipes.run_command os_no_such_program 1 ["nonexistent-binary-xyz", "-v"]
          World.start =
        some (Outcome.throw (Error.CommandNotFoundError
          ("command not found " ++ "nonexistent-binary-xyz")), World.start) :=
  ⟨by decide,
   (run_command_fails_before_planning os_no_such_program 1 builder_two_pipes World.start).2
     "nonexistent-binary-xyz" ["-v"] (by decide)⟩

/-- C8: no pipe descriptor created by `run_command` is claimed to be closed more than once
in the parent, also when the call fails.  When stdin is piped (descriptors 3 and 4, the
handle keeping 4) and `posix_spawn` fails, unwinding closes 3 and 4 through the pair and then
4 again through the local handle; the same happens when the second `pipe_create` fails.  On
success, with stdin and stdout piped, only the two child-facing ends 3 and 6 are closed and
the handle keeps 4 and 5. -/
theorem failed_spawn_closes_parent_end_twice :
    (builder_cin_pipe.run_command os_spawn_fails 1 ["cat"] World.start).map
        (fun r => (r.1, closes_of r.2.trace)) =
      some (Outcome.throw
        (Error.SpawnError "posix_spawn failed with error: Cannot allocate memory"),
        [3, 4, 4]) ∧
      (builder_two_pipes.run_command os_one_pipe 1 ["cat"] World.start).map
        (fun r => (r.1, closes_of r.2.trace)) =
      some (Outcome.throw Error.pipe_create_failed, [3, 4, 4]) ∧
      (builder_two_pipes.run_command (os_exit 0) 1 ["cat"] World.start).map
        (fun r => (r.1, closes_of r.2.trace)) =
      some (Outcome.ret { Popen.fresh with cin := 4, cout := 5, pid := 4242 }, [3, 6]) := by
  decide

/-- C10: when both merges are requested at once (`cout_option = cerr` and
`cerr_option = cout`), planning ends the same way as for the merge of stderr into stdout
alone (stdout inherited), and when it completes the plan is stdin's actions, `dup2(1, 2)`,
`dup2(2, 1)`: on every descriptor table it gives the same result as the plan for stderr into
stdout alone, and when it runs to its end descriptors 1 and 2 both refer to the open target
descriptor 1 had when stdin's actions were done. -/
theorem both_merges_act_as_one (os : OS) (b : ProcessBuilder) (w : World)
    (hout : b.cout_option = PipeOption.cerr) (herr : b.cerr_option = PipeOption.cout) :
    (plan_streams os b w).1 =
        (plan_streams os { b with cout_option := PipeOption.inherit } w).1 ∧
      ((plan_streams os b w).1 = Outcome.ret () →
        (plan_streams os b w).2.1.action = (plan_cin os b Frame.fresh w).2.1.action ++
            [FileAction.adddup2 kStdOutValue kStdErrValue,
             FileAction.adddup2 kStdErrValue kStdOutValue] ∧
          (plan_streams os { b with cout_option := PipeOption.inherit } w).2.1.action =
            (plan_cin os b Frame.fresh w).2.1.action ++
              [FileAction.adddup2 kStdOutValue kStdErrValue] ∧
          ∀ t : FdTable,
            exec_plan t (plan_streams os b w).2.1.action =
              exec_plan t
                (plan_streams os { b with cout_option := PipeOption.inherit } w).2.1.action ∧
            ∀ t1 t2 : FdTable,
              exec_plan t (plan_cin os b Frame.fresh w).2.1.action = some t1 →
              exec_plan t (plan_streams os b w).2.1.action = some t2 →
              t2 kStdOutValue = t1 kStdOutValue ∧ t2 kStdErrValue = t1 kStdOutValue ∧
                t1 kStdOutValue ≠ none) := by
  have hb := plan_streams_both_merges os b w hout herr
  have hs := plan_streams_stderr_merge_only os { b with cout_option := PipeOption.inherit } w
    rfl herr
  have hcin : plan_cin os { b with cout_option := PipeOption.inherit } Frame.fresh w =
      plan_cin os b Frame.fresh w := rfl
  rw [hcin] at hs
  rw [hb, hs]
  rcases plan_cin os b Frame.fresh w with ⟨o, f1, w1⟩
  cases o with
  | throw e => simp
  | ret u =>
    refine ⟨rfl, fun _ => ⟨rfl, rfl, fun t => ?_⟩⟩
    have heq : exec_plan t (f1.action ++ [FileAction.adddup2 kStdOutValue kStdErrValue,
        FileAction.adddup2 kStdErrValue kStdOutValue]) =
        exec_plan t (f1.action ++ [FileAction.adddup2 kStdOutValue kStdErrValue]) := by
      rw [exec_plan_append, exec_plan_append]
      cases exec_plan t f1.action with
      | none => rfl
      | some t1 => exact exec_merge_pair t1
    refine ⟨heq, ?_⟩
    intro t1 t2 h1 h2
    simp only at h1 h2
    rw [heq, exec_plan_append, h1] at h2
    obtain ⟨ha, hb2, hc⟩ := exec_stderr_merge t1 t2 h2
    exact ⟨hb2, by rw [← ha]; exact hb2, hc⟩

theorem both_merges_act_as_one_witness :
    (builder_both_merges.cout_option = PipeOption.cerr ∧
      builder_both_merges.cerr_option = PipeOption.cout) ∧
      (plan_streams (os_exit 0) builder_both_merges World.start).1 = Outcome.ret () ∧
      (exec_plan std_table
          (plan_streams (os_exit 0) builder_both_merges World.start).2.1.action).map
        (fun t => [t 0, t 1, t 2]) = some [some 100, some 101, some 101] ∧
      (plan_streams (os_exit 0) builder_both_merges World.start).1 =
        (plan_streams (os_exit 0)
          { builder_both_merges with cout_option := PipeOption.inherit } World.start).1 :=
  ⟨by decide, by decide, by decide,
   (both_merges_act_as_one (os_exit 0) builder_both_merges World.start rfl rfl).1⟩

end Subprocess
